import Mathlib

/-!
# xDS transport over gRPC (`src/core/xds/grpc/xds_transport_grpc.cc`)

A shallow embedding of the transport factory, the transport and the streaming
call of `xds_transport_grpc.cc`.

* Pointers are natural numbers (an address never handed out twice); a null
  pointer is `none`.
* `std::map` style unique-key maps are functions from keys to `Option` values,
  with `find`, `emplace` and `erase` as in the C++ containers.
* Calls on the caller's handler objects are recorded, oldest first, in a list.
* Mutexes are not modelled: every function below is one critical section of
  the source, and interleavings are sequences of such steps.
-/

namespace XdsTransportGrpc

/-! ## Unique-key maps -/

/-- A unique-key associative container (`std::map`, `flat_hash_map`). -/
abbrev UMap (κ ν : Type) := κ → Option ν

/-- The empty container. -/
def UMap.empty {κ ν : Type} : UMap κ ν := fun _ => none

/-- Lookup `m.find(k)`: `none` stands for `m.end()`. -/
def UMap.find {κ ν : Type} (m : UMap κ ν) (k : κ) : Option ν := m k

/-- Insertion `m.emplace(k, v)`: inserts only when `k` has no entry yet; an
existing entry is left as it is. -/
def UMap.emplace {κ ν : Type} [DecidableEq κ] (m : UMap κ ν) (k : κ) (v : ν) : UMap κ ν :=
  match m k with
  | some _ => m
  | none => fun k' => if k' = k then some v else m k'

/-- Removal `m.erase(it)` for the iterator `it` that `find(k)` returned. -/
def UMap.erase {κ ν : Type} [DecidableEq κ] (m : UMap κ ν) (k : κ) : UMap κ ν :=
  fun k' => if k' = k then none else m k'

/-! ## Status values -/

/-- The canonical status codes of `absl::StatusCode`. -/
inductive StatusCode
  | kOk | kCancelled | kUnknown | kInvalidArgument | kDeadlineExceeded | kNotFound
  | kAlreadyExists | kPermissionDenied | kResourceExhausted | kFailedPrecondition
  | kAborted | kOutOfRange | kUnimplemented | kInternal | kUnavailable | kDataLoss
  | kUnauthenticated
  deriving DecidableEq, Repr

/-- An `absl::Status` as seen through `code()` and `message()`. -/
structure Status where
  code : StatusCode
  message : String
  deriving DecidableEq, Repr

/-- The two-argument constructor `absl::Status(code, msg)` of the Abseil
library, which this file calls but does not define. Its contract in
`absl/status/status.h`: "If `code == absl::StatusCode::kOk`, `msg` is ignored
and an object identical to an OK status is constructed"; otherwise the status
carries `code` and `msg`. -/
def Status.make (code : StatusCode) (msg : String) : Status :=
  if code = StatusCode.kOk then ⟨StatusCode.kOk, ""⟩ else ⟨code, msg⟩

/-- The helper `absl::UnavailableError(msg)`. -/
def UnavailableError (msg : String) : Status := Status.make StatusCode.kUnavailable msg

/-! ## Connectivity-state adapter (`StateWatcher`) -/

/-- The connectivity states of `grpc_connectivity_state`. -/
inductive grpc_connectivity_state
  | GRPC_CHANNEL_IDLE
  | GRPC_CHANNEL_CONNECTING
  | GRPC_CHANNEL_READY
  | GRPC_CHANNEL_TRANSIENT_FAILURE
  | GRPC_CHANNEL_SHUTDOWN
  deriving DecidableEq, Repr

/-- `StateWatcher::OnConnectivityStateChange(new_state, status)`: the list of
arguments with which `watcher_->OnConnectivityFailure` is called, in order. -/
def OnConnectivityStateChange (new_state : grpc_connectivity_state) (status : Status) :
    List Status :=
  if new_state = grpc_connectivity_state.GRPC_CHANNEL_TRANSIENT_FAILURE then
    [Status.make status.code ("channel in TRANSIENT_FAILURE: " ++ status.message)]
  else
    []

/-! ## Credentials (`CreateXdsChannel`) -/

/-- Call credentials: an object built by the call-credentials registry from a
configuration, or a `grpc_composite_call_credentials` of two of them. -/
inductive grpc_call_credentials
  | created (config : String)
  | grpc_composite_call_credentials (inner : grpc_call_credentials)
      (added : grpc_call_credentials)
  deriving DecidableEq, Repr

/-- Channel credentials: an object built by the channel-credentials registry,
or a `grpc_composite_channel_credentials` of channel and call credentials. -/
inductive grpc_channel_credentials
  | created (config : String)
  | grpc_composite_channel_credentials (inner : grpc_channel_credentials)
      (call : grpc_call_credentials)
  deriving DecidableEq, Repr

/-- What `CreateXdsChannel` reads from a `GrpcXdsServerInterface`. -/
structure GrpcXdsServerInterface where
  server_uri : String
  channel_creds_config : String
  call_creds_configs : List String
  deriving DecidableEq, Repr

/-- One iteration of the loop over `server.call_creds_configs()`: `call_creds`
is the accumulator (`none` is the null pointer) and `creds` the credentials
built for the current configuration. -/
def callCredsLoopBody (call_creds : Option grpc_call_credentials)
    (creds : grpc_call_credentials) : Option grpc_call_credentials :=
  match call_creds with
  | none => some creds
  | some acc => some (grpc_call_credentials.grpc_composite_call_credentials acc creds)

/-- The credentials that `CreateXdsChannel` passes to `grpc_channel_create`.
The two registries (`CreateChannelCreds`, `CreateCallCreds`) live outside this
file and are parameters. -/
def CreateXdsChannel_creds (CreateChannelCreds : String → grpc_channel_credentials)
    (CreateCallCreds : String → grpc_call_credentials)
    (server : GrpcXdsServerInterface) : grpc_channel_credentials :=
  let channel_creds := CreateChannelCreds server.channel_creds_config
  let call_creds := server.call_creds_configs.foldl
    (fun acc call_creds_config => callCredsLoopBody acc (CreateCallCreds call_creds_config))
    none
  match call_creds with
  | some cc => grpc_channel_credentials.grpc_composite_channel_credentials channel_creds cc
  | none => channel_creds

/-! ## Streaming call (`GrpcStreamingCall`) -/

/-- A raw `grpc_byte_buffer`: its slices, in order. -/
abbrev grpc_byte_buffer := List String

/-- The function `grpc_byte_buffer_reader_readall`: all slices of the buffer
joined into one slice. -/
def grpc_byte_buffer_reader_readall (bb : grpc_byte_buffer) : String :=
  bb.foldl (fun acc slice => acc ++ slice) ""

/-- A call made on the `StreamingCall::EventHandler` of a call. -/
inductive HandlerCall
  | OnRequestSent (ok : Bool)
  | OnRecvMessage (payload : String)
  | OnStatusReceived (status : Status)
  deriving DecidableEq, Repr

/-- The batches this file starts on `call_`, named after the closure each one
completes with. -/
inductive Batch
  | on_recv_initial_metadata_
  | on_request_sent_
  | on_response_received_
  | on_status_received_
  deriving DecidableEq, Repr

/-- The state of one `GrpcStreamingCall`, together with the batches started on
its `call_` that have not completed yet. -/
structure GrpcStreamingCall where
  /-- The reference count of the object; it is deleted when this reaches 0. -/
  refs : Nat
  send_message_payload_ : Option grpc_byte_buffer
  recv_message_payload_ : Option grpc_byte_buffer
  status_code_ : StatusCode
  status_details_ : String
  /-- Whether `grpc_call_cancel_internal(call_)` has been called. -/
  cancelled : Bool
  /-- Batches started on `call_` whose closure has not run yet. -/
  outstanding : List Batch
  /-- Calls made on `event_handler_`, oldest first. -/
  handler : List HandlerCall
  deriving DecidableEq, Repr

/-- Modelled from the spec: `grpc_call_start_batch_and_execute` of the RPC
engine, which is not in this file. It starts one asynchronous batch; the
closure given with it runs once, later, when the batch completes. -/
def grpc_call_start_batch_and_execute (self : GrpcStreamingCall) (b : Batch) :
    GrpcStreamingCall :=
  { self with outstanding := self.outstanding ++ [b] }

/-- Taking a reference: `Ref(...).release()`. -/
def GrpcStreamingCall.Ref (self : GrpcStreamingCall) : GrpcStreamingCall :=
  { self with refs := self.refs + 1 }

/-- Dropping a reference: what the destructor of the `RefCountedPtr self` of a
callback does. -/
def GrpcStreamingCall.Unref (self : GrpcStreamingCall) : GrpcStreamingCall :=
  { self with refs := self.refs - 1 }

/-- The constructor, as run by `MakeOrphanable<GrpcStreamingCall>`: the object
starts with its initial reference, takes one more for `OnRecvInitialMetadata`
and starts the initial-metadata batch and the status batch; the latter relies
on the initial reference. -/
def GrpcStreamingCall.new : GrpcStreamingCall :=
  let self : GrpcStreamingCall :=
    { refs := 1, send_message_payload_ := none, recv_message_payload_ := none,
      status_code_ := StatusCode.kOk, status_details_ := "", cancelled := false,
      outstanding := [], handler := [] }
  let self := self.Ref
  let self := grpc_call_start_batch_and_execute self Batch.on_recv_initial_metadata_
  grpc_call_start_batch_and_execute self Batch.on_status_received_

/-- `GrpcStreamingCall::Orphan()`: cancels the call; the initial reference
stays with `OnStatusReceived`. -/
def GrpcStreamingCall.Orphan (self : GrpcStreamingCall) : GrpcStreamingCall :=
  { self with cancelled := true }

/-- `GrpcStreamingCall::SendMessage(payload)`. -/
def GrpcStreamingCall.SendMessage (self : GrpcStreamingCall) (payload : String) :
    GrpcStreamingCall :=
  let self := { self with send_message_payload_ := some [payload] }
  let self := self.Ref
  grpc_call_start_batch_and_execute self Batch.on_request_sent_

/-- `GrpcStreamingCall::StartRecvMessage()`. -/
def GrpcStreamingCall.StartRecvMessage (self : GrpcStreamingCall) : GrpcStreamingCall :=
  let self := self.Ref
  grpc_call_start_batch_and_execute self Batch.on_response_received_

/-- `GrpcStreamingCall::OnRecvInitialMetadata(arg, error)`. -/
def GrpcStreamingCall.OnRecvInitialMetadata (self : GrpcStreamingCall) : GrpcStreamingCall :=
  self.Unref

/-- `GrpcStreamingCall::OnRequestSent(arg, error)`; `error_ok` is `error.ok()`. -/
def GrpcStreamingCall.OnRequestSent (self : GrpcStreamingCall) (error_ok : Bool) :
    GrpcStreamingCall :=
  let self := { self with send_message_payload_ := none }
  let self := { self with handler := self.handler ++ [HandlerCall.OnRequestSent error_ok] }
  self.Unref

/-- `GrpcStreamingCall::OnResponseReceived(arg, error)`. -/
def GrpcStreamingCall.OnResponseReceived (self : GrpcStreamingCall) : GrpcStreamingCall :=
  match self.recv_message_payload_ with
  | some payload =>
    let response_slice := grpc_byte_buffer_reader_readall payload
    let self := { self with recv_message_payload_ := none }
    let self := { self with handler := self.handler ++ [HandlerCall.OnRecvMessage response_slice] }
    self.Unref
  | none => self.Unref

/-- `GrpcStreamingCall::OnStatusReceived(arg, error)`. -/
def GrpcStreamingCall.OnStatusReceived (self : GrpcStreamingCall) : GrpcStreamingCall :=
  let self := { self with handler := self.handler ++
    [HandlerCall.OnStatusReceived (Status.make self.status_code_ self.status_details_)] }
  self.Unref

/-- One step in the life of a call: a call by the owner, or the RPC engine
completing an outstanding batch, with the data the engine delivers. -/
inductive CallAction
  | SendMessage (payload : String)
  | StartRecvMessage
  | Orphan
  | RecvInitialMetadataDone
  | RequestSentDone (error_ok : Bool)
  | ResponseReceivedDone (recv_message : Option grpc_byte_buffer)
  | StatusReceivedDone (status : StatusCode) (status_details : String)
  deriving DecidableEq, Repr

/-- Modelled from the spec: the RPC engine completing batch `b`, which is
possible only while `b` is outstanding. The batch stops being outstanding. -/
def completeBatch (self : GrpcStreamingCall) (b : Batch) : Option GrpcStreamingCall :=
  if b ∈ self.outstanding then
    some { self with outstanding := self.outstanding.erase b }
  else
    none

/-- The step function of a call. A completion first stores what the engine
received into the fields the batch pointed at, then runs the closure. -/
def GrpcStreamingCall.step (self : GrpcStreamingCall) : CallAction → Option GrpcStreamingCall
  | CallAction.SendMessage payload => some (self.SendMessage payload)
  | CallAction.StartRecvMessage => some self.StartRecvMessage
  | CallAction.Orphan => some self.Orphan
  | CallAction.RecvInitialMetadataDone =>
    (completeBatch self Batch.on_recv_initial_metadata_).map
      GrpcStreamingCall.OnRecvInitialMetadata
  | CallAction.RequestSentDone error_ok =>
    (completeBatch self Batch.on_request_sent_).map
      (fun self => self.OnRequestSent error_ok)
  | CallAction.ResponseReceivedDone recv_message =>
    (completeBatch self Batch.on_response_received_).map
      (fun self => ({ self with recv_message_payload_ := recv_message }).OnResponseReceived)
  | CallAction.StatusReceivedDone status status_details =>
    (completeBatch self Batch.on_status_received_).map
      (fun self => ({ self with status_code_ := status,
                                status_details_ := status_details }).OnStatusReceived)

/-- Running a sequence of steps; `none` when a step is not possible. -/
def GrpcStreamingCall.run (self : GrpcStreamingCall) : List CallAction → Option GrpcStreamingCall
  | [] => some self
  | a :: rest =>
    match self.step a with
    | some next => next.run rest
    | none => none

/-- The states a call can reach from its construction. -/
def GrpcStreamingCall.Reachable (c : GrpcStreamingCall) : Prop :=
  ∃ steps : List CallAction, GrpcStreamingCall.new.run steps = some c

/-- A step by which the owner of the call starts a send or a receive batch. -/
def CallAction.issuesBatch : CallAction → Bool
  | CallAction.SendMessage _ => true
  | CallAction.StartRecvMessage => true
  | _ => false

/-- A handler call that reports the status of the call. -/
def HandlerCall.isStatusEvent : HandlerCall → Bool
  | HandlerCall.OnStatusReceived _ => true
  | _ => false

/-! ## Transport (`GrpcXdsTransport`) -/

/-- A `StateWatcher` object: its address and the subscriber `watcher_` that it
forwards failures to (subscribers are identified by their address). -/
structure StateWatcher where
  addr : Nat
  watcher_ : Nat
  deriving DecidableEq, Repr

/-- A watcher registered on the channel, with the state it was registered
from. -/
structure ChannelWatcher where
  initial_state : grpc_connectivity_state
  watcher : StateWatcher
  deriving DecidableEq, Repr

/-- The state of one `GrpcXdsTransport` and of the channel it owns. -/
structure GrpcXdsTransport where
  key_ : String
  /-- The value of `channel_->IsLame()`; fixed when the channel is created. -/
  channel_IsLame : Bool
  /-- The strong reference count of the `DualRefCounted` object. -/
  strong_refs : Nat
  /-- Whether `Orphaned()` has run. -/
  orphaned : Bool
  /-- The member `watchers_`: subscriber to address of its `StateWatcher`. -/
  watchers_ : UMap Nat Nat
  /-- The connectivity watchers currently registered on `channel_`. -/
  channel_watchers : List ChannelWatcher
  /-- The number of `StateWatcher` objects allocated so far; the next one gets
  this number as its address. -/
  state_watchers_allocated : Nat

/-- Modelled from the spec: `Channel::AddConnectivityWatcher(initial_state,
watcher)` of the RPC channel, which is not in this file; it registers the
watcher on the channel. -/
def AddConnectivityWatcher (self : GrpcXdsTransport) (initial_state : grpc_connectivity_state)
    (watcher : StateWatcher) : GrpcXdsTransport :=
  { self with channel_watchers := self.channel_watchers ++ [⟨initial_state, watcher⟩] }

/-- Modelled from the spec: `Channel::RemoveConnectivityWatcher(watcher)` of
the RPC channel, which is not in this file; it removes and releases the
watcher with this address. -/
def RemoveConnectivityWatcher (self : GrpcXdsTransport) (watcher : Nat) : GrpcXdsTransport :=
  { self with channel_watchers :=
      self.channel_watchers.filter (fun cw => decide (cw.watcher.addr ≠ watcher)) }

/-- `GrpcXdsTransport::StartConnectivityFailureWatch(watcher)`. -/
def GrpcXdsTransport.StartConnectivityFailureWatch (self : GrpcXdsTransport) (watcher : Nat) :
    GrpcXdsTransport :=
  if self.channel_IsLame then self
  else
    let state_watcher : StateWatcher := ⟨self.state_watchers_allocated, watcher⟩
    let self := { self with state_watchers_allocated := self.state_watchers_allocated + 1 }
    let self := { self with watchers_ := self.watchers_.emplace watcher state_watcher.addr }
    AddConnectivityWatcher self grpc_connectivity_state.GRPC_CHANNEL_IDLE state_watcher

/-- `GrpcXdsTransport::StopConnectivityFailureWatch(watcher)`. -/
def GrpcXdsTransport.StopConnectivityFailureWatch (self : GrpcXdsTransport) (watcher : Nat) :
    GrpcXdsTransport :=
  if self.channel_IsLame then self
  else
    match self.watchers_.find watcher with
    | none => self
    | some state_watcher =>
      let self := { self with watchers_ := self.watchers_.erase watcher }
      RemoveConnectivityWatcher self state_watcher

/-- A call of one of the two watch functions. -/
inductive WatchCall
  | Start (watcher : Nat)
  | Stop (watcher : Nat)
  deriving DecidableEq, Repr

/-- Performing a watch call on a transport. -/
def GrpcXdsTransport.watchCall (self : GrpcXdsTransport) : WatchCall → GrpcXdsTransport
  | WatchCall.Start w => self.StartConnectivityFailureWatch w
  | WatchCall.Stop w => self.StopConnectivityFailureWatch w

/-- Performing a sequence of watch calls, first to last. -/
def GrpcXdsTransport.watchCalls (self : GrpcXdsTransport) (calls : List WatchCall) :
    GrpcXdsTransport :=
  calls.foldl GrpcXdsTransport.watchCall self

/-- What `GetTransport` reads from an `XdsBootstrap::XdsServerTarget`: the key,
and whether the channel that `CreateXdsChannel` builds for it is lame (decided
by `grpc_channel_create`, outside this file). -/
structure XdsServerTarget where
  Key : String
  channel_IsLame : Bool
  deriving DecidableEq, Repr

/-- The constructor `GrpcXdsTransport(factory, server, status)` as run by
`MakeRefCounted`: the new object holds one strong reference, and `*status` is
overwritten only when the channel is lame. -/
def GrpcXdsTransport.new (server : XdsServerTarget) (status : Status) :
    GrpcXdsTransport × Status :=
  let self : GrpcXdsTransport :=
    { key_ := server.Key, channel_IsLame := server.channel_IsLame, strong_refs := 1,
      orphaned := false, watchers_ := UMap.empty, channel_watchers := [],
      state_watchers_allocated := 0 }
  if self.channel_IsLame then
    (self, UnavailableError "xds client has a lame channel")
  else
    (self, status)

/-- The states of the watcher map and of the channel that a transport can
reach from its construction by watch calls. -/
inductive GrpcXdsTransport.WatchReachable : GrpcXdsTransport → Prop
  | constructed (server : XdsServerTarget) (status : Status) :
      WatchReachable (GrpcXdsTransport.new server status).1
  | call (t : GrpcXdsTransport) (c : WatchCall) :
      WatchReachable t → WatchReachable (t.watchCall c)

/-! ## Transport factory (`GrpcXdsTransportFactory`) -/

/-- The state of a `GrpcXdsTransportFactory`: the member `transports_` (key to
address of a transport) and every transport constructed so far; the address of
a transport is its position in `heap`. -/
structure GrpcXdsTransportFactory where
  transports_ : UMap String Nat
  heap : List GrpcXdsTransport

/-- A factory right after its construction. -/
def GrpcXdsTransportFactory.new : GrpcXdsTransportFactory :=
  { transports_ := UMap.empty, heap := [] }

/-- The transport at address `p`. -/
def GrpcXdsTransportFactory.deref (self : GrpcXdsTransportFactory) (p : Nat) :
    Option GrpcXdsTransport :=
  self.heap[p]?

/-- A transport is live while its strong reference count is not 0. -/
def GrpcXdsTransportFactory.live (self : GrpcXdsTransportFactory) (p : Nat) : Bool :=
  match self.deref p with
  | some t => decide (0 < t.strong_refs)
  | none => false

/-- The function `RefIfNonZero()` on the transport at `p`: takes a strong
reference and returns the pointer, unless the count is 0, when it returns
null. -/
def GrpcXdsTransportFactory.RefIfNonZero (self : GrpcXdsTransportFactory) (p : Nat) :
    GrpcXdsTransportFactory × Option Nat :=
  match self.deref p with
  | some t =>
    if t.strong_refs = 0 then (self, none)
    else ({ self with heap := self.heap.set p { t with strong_refs := t.strong_refs + 1 } },
          some p)
  | none => (self, none)

/-- `GrpcXdsTransportFactory::GetTransport(server, status)`: the new factory
state, the returned transport and the value of `*status` afterwards. -/
def GrpcXdsTransportFactory.GetTransport (self : GrpcXdsTransportFactory)
    (server : XdsServerTarget) (status : Status) :
    GrpcXdsTransportFactory × Nat × Status :=
  let key := server.Key
  let found : GrpcXdsTransportFactory × Option Nat :=
    match self.transports_.find key with
    | some p => self.RefIfNonZero p
    | none => (self, none)
  match found with
  | (self, some transport) => (self, transport, status)
  | (self, none) =>
    let made := GrpcXdsTransport.new server status
    let transport := self.heap.length
    let self := { self with heap := self.heap ++ [made.1] }
    let self := { self with transports_ := self.transports_.emplace key transport }
    (self, transport, made.2)

/-- `GrpcXdsTransport::Orphaned()` for the transport at address `this`: the
critical section on the factory. The hop through the event engine that
follows only releases a weak reference and changes nothing here. -/
def GrpcXdsTransportFactory.Orphaned (self : GrpcXdsTransportFactory) (this : Nat) :
    GrpcXdsTransportFactory :=
  match self.deref this with
  | none => self
  | some t =>
    match self.transports_.find t.key_ with
    | some p =>
      if p = this then { self with transports_ := self.transports_.erase t.key_ }
      else self
    | none => self

/-- Rewriting the transport at `p`. -/
def GrpcXdsTransportFactory.modify (self : GrpcXdsTransportFactory) (p : Nat)
    (g : GrpcXdsTransport → GrpcXdsTransport) : GrpcXdsTransportFactory :=
  match self.deref p with
  | some t => { self with heap := self.heap.set p (g t) }
  | none => self

/-- One step of a factory and its transports: a `GetTransport` call, a holder
releasing a strong reference, or the `Orphaned` call that `DualRefCounted`
makes once after the strong count has reached 0. -/
inductive FactoryAction
  | GetTransport (server : XdsServerTarget) (status : Status)
  | Unref (p : Nat)
  | Orphaned (p : Nat)
  deriving DecidableEq, Repr

/-- The step function: the new state and, for `GetTransport`, the returned
transport. `Unref` needs a strong reference to release; `Orphaned` runs once,
after the strong count has reached 0. -/
def GrpcXdsTransportFactory.step (self : GrpcXdsTransportFactory) :
    FactoryAction → Option (GrpcXdsTransportFactory × Option Nat)
  | FactoryAction.GetTransport server status =>
    let r := self.GetTransport server status
    some (r.1, some r.2.1)
  | FactoryAction.Unref p =>
    if self.live p then
      some (self.modify p (fun t => { t with strong_refs := t.strong_refs - 1 }), none)
    else none
  | FactoryAction.Orphaned p =>
    match self.deref p with
    | some t =>
      if t.strong_refs = 0 ∧ t.orphaned = false then
        some ((self.Orphaned p).modify p (fun t => { t with orphaned := true }), none)
      else none
    | none => none

/-- Running a sequence of steps: the final state and the transports returned
by the `GetTransport` calls, in order; `none` when a step is not possible. -/
def GrpcXdsTransportFactory.run (self : GrpcXdsTransportFactory) :
    List FactoryAction → Option (GrpcXdsTransportFactory × List Nat)
  | [] => some (self, [])
  | a :: rest =>
    match self.step a with
    | some (next, ret) =>
      match next.run rest with
      | some (final, rets) => some (final, ret.toList ++ rets)
      | none => none
    | none => none

/-! ## Invariants used in the proofs -/

/-- The status batch is outstanding or its closure has reported the status:
exactly one of the two, counted with multiplicity. -/
def GrpcStreamingCall.statusOnce (c : GrpcStreamingCall) : Prop :=
  c.outstanding.count Batch.on_status_received_ +
    c.handler.countP HandlerCall.isStatusEvent = 1

/-- No send, receive or status batch is outstanding. -/
def GrpcStreamingCall.quiet (c : GrpcStreamingCall) : Prop :=
  Batch.on_request_sent_ ∉ c.outstanding ∧ Batch.on_response_received_ ∉ c.outstanding ∧
    Batch.on_status_received_ ∉ c.outstanding

/-- Every watcher registered on the channel was allocated earlier. -/
def GrpcXdsTransport.allocatedBelow (t : GrpcXdsTransport) : Prop :=
  ∀ cw ∈ t.channel_watchers, cw.watcher.addr < t.state_watchers_allocated

/-! ## Helper lemmas -/

/-- Once the accumulator is not null, the loop of `CreateXdsChannel` is a left
fold of the composite constructor. -/
theorem callCreds_foldl_some (CreateCallCreds : String → grpc_call_credentials)
    (configs : List String) (acc : grpc_call_credentials) :
    configs.foldl (fun a cfg => callCredsLoopBody a (CreateCallCreds cfg)) (some acc) =
      some ((configs.map CreateCallCreds).foldl
        grpc_call_credentials.grpc_composite_call_credentials acc) := by
  induction configs generalizing acc with
  | nil => rfl
  | cons cfg rest ih =>
    simp only [List.foldl, List.map]
    exact ih _

/-- Every step keeps the reference count equal to the number of outstanding
batches. -/
theorem step_refs_eq_outstanding (c c' : GrpcStreamingCall) (a : CallAction)
    (hstep : c.step a = some c') (hinv : c.refs = c.outstanding.length) :
    c'.refs = c'.outstanding.length := by
  cases a <;>
    simp [GrpcStreamingCall.step, GrpcStreamingCall.SendMessage,
      GrpcStreamingCall.StartRecvMessage, GrpcStreamingCall.Orphan, GrpcStreamingCall.Ref,
      grpc_call_start_batch_and_execute, completeBatch] at hstep
  · subst hstep; simp [hinv]
  · subst hstep; simp [hinv]
  · subst hstep; simp [hinv]
  · obtain ⟨hmem, rfl⟩ := hstep
    simp [GrpcStreamingCall.OnRecvInitialMetadata, GrpcStreamingCall.Unref, hinv,
      List.length_erase_of_mem hmem]
  · obtain ⟨hmem, rfl⟩ := hstep
    simp [GrpcStreamingCall.OnRequestSent, GrpcStreamingCall.Unref, hinv,
      List.length_erase_of_mem hmem]
  · obtain ⟨hmem, rfl⟩ := hstep
    simp only [GrpcStreamingCall.OnResponseReceived]
    split <;> simp [GrpcStreamingCall.Unref, hinv, List.length_erase_of_mem hmem]
  · obtain ⟨hmem, rfl⟩ := hstep
    simp [GrpcStreamingCall.OnStatusReceived, GrpcStreamingCall.Unref, hinv,
      List.length_erase_of_mem hmem]

/-- Every sequence of steps keeps the reference count equal to the number of
outstanding batches. -/
theorem run_refs_eq_outstanding (steps : List CallAction) (c c' : GrpcStreamingCall)
    (hrun : c.run steps = some c') (hinv : c.refs = c.outstanding.length) :
    c'.refs = c'.outstanding.length := by
  induction steps generalizing c with
  | nil =>
    simp [GrpcStreamingCall.run] at hrun
    subst hrun; exact hinv
  | cons a rest ih =>
    simp only [GrpcStreamingCall.run] at hrun
    cases hs : c.step a with
    | none => simp [hs] at hrun
    | some next =>
      simp only [hs] at hrun
      exact ih next hrun (step_refs_eq_outstanding c next a hs hinv)

/-- Every step keeps `statusOnce`. -/
theorem step_statusOnce (c c' : GrpcStreamingCall) (a : CallAction)
    (hstep : c.step a = some c') (hinv : c.statusOnce) : c'.statusOnce := by
  unfold GrpcStreamingCall.statusOnce at *
  cases a <;>
    simp [GrpcStreamingCall.step, GrpcStreamingCall.SendMessage,
      GrpcStreamingCall.StartRecvMessage, GrpcStreamingCall.Orphan, GrpcStreamingCall.Ref,
      grpc_call_start_batch_and_execute, completeBatch] at hstep
  · subst hstep; simpa using hinv
  · subst hstep; simpa using hinv
  · subst hstep; simpa using hinv
  · obtain ⟨_, rfl⟩ := hstep
    simpa [GrpcStreamingCall.OnRecvInitialMetadata, GrpcStreamingCall.Unref,
      List.count_erase_of_ne] using hinv
  · obtain ⟨_, rfl⟩ := hstep
    simpa [GrpcStreamingCall.OnRequestSent, GrpcStreamingCall.Unref,
      List.count_erase_of_ne, HandlerCall.isStatusEvent] using hinv
  · obtain ⟨_, rfl⟩ := hstep
    simp only [GrpcStreamingCall.OnResponseReceived]
    split <;>
      simpa [GrpcStreamingCall.Unref, List.count_erase_of_ne,
        HandlerCall.isStatusEvent] using hinv
  · obtain ⟨hmem, rfl⟩ := hstep
    have hpos : 0 < c.outstanding.count Batch.on_status_received_ :=
      List.count_pos_iff.mpr hmem
    simp [GrpcStreamingCall.OnStatusReceived, GrpcStreamingCall.Unref,
      List.count_erase_self, HandlerCall.isStatusEvent]
    omega

/-- Every sequence of steps keeps `statusOnce`. -/
theorem run_statusOnce (steps : List CallAction) (c c' : GrpcStreamingCall)
    (hrun : c.run steps = some c') (hinv : c.statusOnce) : c'.statusOnce := by
  induction steps generalizing c with
  | nil =>
    simp [GrpcStreamingCall.run] at hrun
    subst hrun; exact hinv
  | cons a rest ih =>
    simp only [GrpcStreamingCall.run] at hrun
    cases hs : c.step a with
    | none => simp [hs] at hrun
    | some next =>
      simp only [hs] at hrun
      exact ih next hrun (step_statusOnce c next a hs hinv)

/-- From a quiet state, a step that starts no batch leads to a quiet state
and makes no handler call. -/
theorem step_quiet (c c' : GrpcStreamingCall) (a : CallAction)
    (hstep : c.step a = some c') (hq : c.quiet) (ha : a.issuesBatch = false) :
    c'.quiet ∧ c'.handler = c.handler := by
  obtain ⟨h1, h2, h3⟩ := hq
  cases a <;>
    simp [GrpcStreamingCall.step, GrpcStreamingCall.Orphan, completeBatch,
      CallAction.issuesBatch, h1, h2, h3] at hstep ha
  · subst hstep; exact ⟨⟨h1, h2, h3⟩, rfl⟩
  · obtain ⟨_, rfl⟩ := hstep
    refine ⟨⟨?_, ?_, ?_⟩, rfl⟩ <;>
      simp only [GrpcStreamingCall.OnRecvInitialMetadata, GrpcStreamingCall.Unref] <;>
      intro hm
    · exact h1 (List.mem_of_mem_erase hm)
    · exact h2 (List.mem_of_mem_erase hm)
    · exact h3 (List.mem_of_mem_erase hm)

/-- From a quiet state, steps that start no batch make no handler call. -/
theorem run_quiet (steps : List CallAction) (c c' : GrpcStreamingCall)
    (hrun : c.run steps = some c') (hq : c.quiet)
    (ha : ∀ a ∈ steps, a.issuesBatch = false) : c'.handler = c.handler := by
  induction steps generalizing c with
  | nil =>
    simp [GrpcStreamingCall.run] at hrun
    subst hrun; rfl
  | cons a rest ih =>
    simp only [GrpcStreamingCall.run] at hrun
    cases hs : c.step a with
    | none => simp [hs] at hrun
    | some next =>
      simp only [hs] at hrun
      have hstep := step_quiet c next a hs hq (ha a (List.mem_cons_self a rest))
      rw [ih next hrun hstep.1 (fun b hb => ha b (List.mem_cons_of_mem a hb)), hstep.2]

/-- Watch calls keep `allocatedBelow`. -/
theorem watchCall_allocatedBelow (t : GrpcXdsTransport) (c : WatchCall)
    (h : t.allocatedBelow) : (t.watchCall c).allocatedBelow := by
  unfold GrpcXdsTransport.allocatedBelow at *
  cases c with
  | Start w =>
    simp only [GrpcXdsTransport.watchCall, GrpcXdsTransport.StartConnectivityFailureWatch]
    split
    · exact h
    · intro cw hcw
      simp only [AddConnectivityWatcher, List.mem_append, List.mem_singleton] at hcw
      rcases hcw with hcw | rfl
      · exact Nat.lt_succ_of_lt (h cw hcw)
      · exact Nat.lt_succ_self _
  | Stop w =>
    simp only [GrpcXdsTransport.watchCall, GrpcXdsTransport.StopConnectivityFailureWatch]
    split
    · exact h
    · split
      · exact h
      · intro cw hcw
        simp only [RemoveConnectivityWatcher, List.mem_filter] at hcw
        exact h cw hcw.1

/-- In every reachable state the next address is not registered on the
channel. -/
theorem WatchReachable_allocatedBelow (t : GrpcXdsTransport)
    (h : t.WatchReachable) : t.allocatedBelow := by
  induction h with
  | constructed server status =>
    intro cw hcw
    simp only [GrpcXdsTransport.new] at hcw
    split at hcw <;> simp at hcw
  | call t c _ ih => exact watchCall_allocatedBelow t c ih

/-! ## Connectivity filter -/

/-- C3, as stated, fails: in state TRANSIENT_FAILURE with the OK status, the
subscriber is called with the OK status, whose message is empty and not
"channel in TRANSIENT_FAILURE: " followed by the message of the input. -/
theorem OnConnectivityStateChange_ok_status_drops_message :
    OnConnectivityStateChange grpc_connectivity_state.GRPC_CHANNEL_TRANSIENT_FAILURE
        ⟨StatusCode.kOk, ""⟩ = [⟨StatusCode.kOk, ""⟩] ∧
      ¬ (∀ arg ∈ OnConnectivityStateChange
            grpc_connectivity_state.GRPC_CHANNEL_TRANSIENT_FAILURE ⟨StatusCode.kOk, ""⟩,
          arg.code = StatusCode.kOk ∧
            arg.message = "channel in TRANSIENT_FAILURE: " ++ (Status.mk StatusCode.kOk "").message) := by
  decide

/-- C3 (amended): `OnConnectivityFailure` is called if and only if the new
state is TRANSIENT_FAILURE; then it is called exactly once, with a status
whose code is the code of the input status and whose message, for an input
status that is not OK, is "channel in TRANSIENT_FAILURE: " followed by the
input message, and for the OK status is empty. -/
theorem OnConnectivityStateChange_filter (s : grpc_connectivity_state) (st : Status) :
    (OnConnectivityStateChange s st ≠ [] ↔
        s = grpc_connectivity_state.GRPC_CHANNEL_TRANSIENT_FAILURE) ∧
      (s = grpc_connectivity_state.GRPC_CHANNEL_TRANSIENT_FAILURE →
        ∃ arg, OnConnectivityStateChange s st = [arg] ∧ arg.code = st.code ∧
          (st.code ≠ StatusCode.kOk →
            arg.message = "channel in TRANSIENT_FAILURE: " ++ st.message) ∧
          (st.code = StatusCode.kOk → arg.message = "")) := by
  constructor
  · unfold OnConnectivityStateChange
    split <;> simp_all
  · intro hs
    refine ⟨Status.make st.code ("channel in TRANSIENT_FAILURE: " ++ st.message), ?_, ?_, ?_, ?_⟩
    · simp [OnConnectivityStateChange, hs]
    · unfold Status.make
      split <;> simp_all
    · intro hne
      simp [Status.make, hne]
    · intro he
      simp [Status.make, he]

/-- C3 (amended) at TRANSIENT_FAILURE with an Unavailable status. -/
theorem OnConnectivityStateChange_filter_witness :
    ∃ arg, OnConnectivityStateChange grpc_connectivity_state.GRPC_CHANNEL_TRANSIENT_FAILURE
        ⟨StatusCode.kUnavailable, "connect failed"⟩ = [arg] ∧
      arg.code = StatusCode.kUnavailable ∧
      arg.message = "channel in TRANSIENT_FAILURE: connect failed" := by
  obtain ⟨arg, h1, h2, h3, _⟩ :=
    (OnConnectivityStateChange_filter grpc_connectivity_state.GRPC_CHANNEL_TRANSIENT_FAILURE
      ⟨StatusCode.kUnavailable, "connect failed"⟩).2 rfl
  exact ⟨arg, h1, h2, h3 (by decide)⟩

/-! ## Empty versus absent message -/

/-- C4: when the receive buffer holds a payload, `OnResponseReceived` makes
exactly one handler call, `OnRecvMessage` with the slices of the payload
joined (the empty string for a payload of no bytes), and leaves the buffer
null; when the buffer is null it makes no handler call and the buffer stays
null. -/
theorem OnResponseReceived_payload (c : GrpcStreamingCall) :
    (∀ payload, c.recv_message_payload_ = some payload →
        c.OnResponseReceived.handler =
            c.handler ++ [HandlerCall.OnRecvMessage (String.join payload)] ∧
          c.OnResponseReceived.recv_message_payload_ = none) ∧
      (c.recv_message_payload_ = some [] →
        c.OnResponseReceived.handler = c.handler ++ [HandlerCall.OnRecvMessage ""]) ∧
      (c.recv_message_payload_ = none →
        c.OnResponseReceived.handler = c.handler ∧
          c.OnResponseReceived.recv_message_payload_ = none) := by
  refine ⟨?_, ?_, ?_⟩
  · intro payload h
    simp [GrpcStreamingCall.OnResponseReceived, h, GrpcStreamingCall.Unref,
      grpc_byte_buffer_reader_readall, String.join]
  · intro h
    simp [GrpcStreamingCall.OnResponseReceived, h, GrpcStreamingCall.Unref,
      grpc_byte_buffer_reader_readall]
  · intro h
    simp [GrpcStreamingCall.OnResponseReceived, h, GrpcStreamingCall.Unref]

/-- C4 on a call whose receive buffer holds the two slices "re" and "sp1". -/
theorem OnResponseReceived_payload_witness :
    ({ GrpcStreamingCall.new with recv_message_payload_ := some ["re", "sp1"] }
        : GrpcStreamingCall).OnResponseReceived.handler = [HandlerCall.OnRecvMessage "resp1"] ∧
      ({ GrpcStreamingCall.new with recv_message_payload_ := some ["re", "sp1"] }
        : GrpcStreamingCall).OnResponseReceived.recv_message_payload_ = none :=
  (OnResponseReceived_payload
    { GrpcStreamingCall.new with recv_message_payload_ := some ["re", "sp1"] }).1
      ["re", "sp1"] rfl

/-! ## Credential composition -/

/-- C10: the credentials passed to channel creation are the channel
credentials themselves when the target has no call credentials, and otherwise
the composite of the channel credentials with the left fold of the call
credentials composite over the call credentials in the order of the target. -/
theorem CreateXdsChannel_creds_fold (CreateChannelCreds : String → grpc_channel_credentials)
    (CreateCallCreds : String → grpc_call_credentials) (server : GrpcXdsServerInterface) :
    CreateXdsChannel_creds CreateChannelCreds CreateCallCreds server =
      match server.call_creds_configs.map CreateCallCreds with
      | [] => CreateChannelCreds server.channel_creds_config
      | c1 :: rest =>
        grpc_channel_credentials.grpc_composite_channel_credentials
          (CreateChannelCreds server.channel_creds_config)
          (rest.foldl grpc_call_credentials.grpc_composite_call_credentials c1) := by
  unfold CreateXdsChannel_creds
  cases h : server.call_creds_configs with
  | nil => rfl
  | cons cfg rest =>
    simp only [List.foldl, List.map]
    rw [show callCredsLoopBody none (CreateCallCreds cfg) = some (CreateCallCreds cfg) from rfl,
      callCreds_foldl_some]

/-! ## Transport teardown -/

/-- C7: for a transport `t` at address `this` with key `k`, `Orphaned` removes
the entry for `k` if and only if that entry refers to `this`; when `k` has no
entry or its entry is another transport the factory is unchanged; the entries
of all other keys, and all transports, are unchanged in every case. -/
theorem Orphaned_erases_own_entry (f : GrpcXdsTransportFactory) (this : Nat)
    (t : GrpcXdsTransport) (ht : f.deref this = some t) :
    (f.transports_.find t.key_ = some this →
        (f.Orphaned this).transports_.find t.key_ = none) ∧
      (f.transports_.find t.key_ ≠ some this → f.Orphaned this = f) ∧
      ((f.transports_.find t.key_ ≠ none ∧ (f.Orphaned this).transports_.find t.key_ = none) ↔
        f.transports_.find t.key_ = some this) ∧
      (∀ k, k ≠ t.key_ → (f.Orphaned this).transports_.find k = f.transports_.find k) ∧
      (f.Orphaned this).heap = f.heap := by
  unfold GrpcXdsTransportFactory.Orphaned
  simp only [ht]
  cases hf : f.transports_.find t.key_ with
  | none => simp
  | some p =>
    by_cases hp : p = this
    · subst hp
      simp [UMap.find, UMap.erase]
      intro k hk
      simp [hk]
    · simp [hp, hf]

/-- C7 on a factory holding one transport for key "A": its `Orphaned` removes
the entry. -/
theorem Orphaned_erases_own_entry_witness :
    ((GrpcXdsTransportFactory.new.GetTransport ⟨"A", false⟩ ⟨StatusCode.kOk, ""⟩).1.Orphaned
      0).transports_.find "A" = none :=
  (Orphaned_erases_own_entry
    (GrpcXdsTransportFactory.new.GetTransport ⟨"A", false⟩ ⟨StatusCode.kOk, ""⟩).1 0
    (GrpcXdsTransport.new ⟨"A", false⟩ ⟨StatusCode.kOk, ""⟩).1 rfl).1 rfl

/-! ## Connectivity watches -/

/-- C8: on a transport whose channel is lame, `StartConnectivityFailureWatch`
and `StopConnectivityFailureWatch` return the transport unchanged, so does
every sequence of them, and a lame transport as constructed has, after any
such sequence, no watcher in its map and none registered on its channel. -/
theorem lame_channel_watch_noop (t : GrpcXdsTransport) (hlame : t.channel_IsLame = true) :
    (∀ w, t.StartConnectivityFailureWatch w = t ∧ t.StopConnectivityFailureWatch w = t) ∧
      (∀ calls, t.watchCalls calls = t) ∧
      (∀ server status, t = (GrpcXdsTransport.new server status).1 →
        ∀ calls w, (t.watchCalls calls).watchers_.find w = none ∧
          (t.watchCalls calls).channel_watchers = []) := by
  have hcall : ∀ c, t.watchCall c = t := by
    intro c
    cases c <;>
      simp [GrpcXdsTransport.watchCall, GrpcXdsTransport.StartConnectivityFailureWatch,
        GrpcXdsTransport.StopConnectivityFailureWatch, hlame]
  have hcalls : ∀ calls, t.watchCalls calls = t := by
    intro calls
    induction calls with
    | nil => rfl
    | cons c rest ih =>
      simp only [GrpcXdsTransport.watchCalls, List.foldl] at ih ⊢
      rw [hcall c]
      exact ih
  refine ⟨fun w => ⟨hcall (WatchCall.Start w), hcall (WatchCall.Stop w)⟩, hcalls, ?_⟩
  intro server status hnew calls w
  rw [hcalls calls, hnew]
  simp only [GrpcXdsTransport.new]
  split <;> exact ⟨rfl, rfl⟩

/-- C8 on a lame transport as constructed: a Start followed by a Stop for
subscriber 7 changes nothing. -/
theorem lame_channel_watch_noop_witness :
    (GrpcXdsTransport.new ⟨"A", true⟩ ⟨StatusCode.kOk, ""⟩).1.channel_IsLame = true ∧
      ((GrpcXdsTransport.new ⟨"A", true⟩ ⟨StatusCode.kOk, ""⟩).1.watchCalls
          [WatchCall.Start 7, WatchCall.Stop 7]).channel_watchers = [] :=
  ⟨rfl, ((lame_channel_watch_noop (GrpcXdsTransport.new ⟨"A", true⟩ ⟨StatusCode.kOk, ""⟩).1
    rfl).2.2 ⟨"A", true⟩ ⟨StatusCode.kOk, ""⟩ rfl [WatchCall.Start 7, WatchCall.Stop 7] 7).2⟩

/-! ## Reference safety -/

/-- C5: construction leaves a call with reference count 2 and two outstanding
batches, and in every state reachable from there by calls of the owner and
completions in any order, the reference count equals the number of
outstanding batches, so it is not 0 while a batch is outstanding. -/
theorem refs_eq_outstanding (c : GrpcStreamingCall) (hreach : c.Reachable) :
    GrpcStreamingCall.new.refs = 2 ∧ GrpcStreamingCall.new.outstanding.length = 2 ∧
      c.refs = c.outstanding.length ∧ (c.outstanding ≠ [] → 0 < c.refs) := by
  obtain ⟨steps, hrun⟩ := hreach
  have h := run_refs_eq_outstanding steps GrpcStreamingCall.new c hrun rfl
  refine ⟨rfl, rfl, h, ?_⟩
  intro hne
  rw [h]
  exact List.length_pos.mpr hne

/-- C5 on the state right after a `SendMessage`: three references, three
outstanding batches. -/
theorem refs_eq_outstanding_witness :
    (GrpcStreamingCall.new.SendMessage "req1").Reachable ∧
      (GrpcStreamingCall.new.SendMessage "req1").refs =
        (GrpcStreamingCall.new.SendMessage "req1").outstanding.length ∧
      0 < (GrpcStreamingCall.new.SendMessage "req1").refs :=
  ⟨⟨[CallAction.SendMessage "req1"], rfl⟩,
    (refs_eq_outstanding (GrpcStreamingCall.new.SendMessage "req1")
      ⟨[CallAction.SendMessage "req1"], rfl⟩).2.2.1,
    (refs_eq_outstanding (GrpcStreamingCall.new.SendMessage "req1")
      ⟨[CallAction.SendMessage "req1"], rfl⟩).2.2.2 (by decide)⟩

/-! ## Status and later notifications -/

/-- C6, as stated, fails: with a send outstanding when the status batch
completes, the handler gets `OnStatusReceived` and, when the send completes
afterwards, `OnRequestSent`; likewise `OnRecvMessage` for a receive that
completes with a payload after the status. -/
theorem notifications_after_status :
    (GrpcStreamingCall.new.run
        [CallAction.SendMessage "req1", CallAction.StatusReceivedDone StatusCode.kOk "",
          CallAction.RequestSentDone true]).map (fun c => c.handler) =
        some [HandlerCall.OnStatusReceived ⟨StatusCode.kOk, ""⟩,
          HandlerCall.OnRequestSent true] ∧
      (GrpcStreamingCall.new.run
        [CallAction.StartRecvMessage, CallAction.StatusReceivedDone StatusCode.kOk "",
          CallAction.ResponseReceivedDone (some ["resp1"])]).map (fun c => c.handler) =
        some [HandlerCall.OnStatusReceived ⟨StatusCode.kOk, ""⟩,
          HandlerCall.OnRecvMessage "resp1"] := by
  decide

/-- C6 (amended): when `OnStatusReceived` has been delivered in a reachable
state `c1` in which no send and no receive batch is outstanding, then along
every later sequence of steps in which the owner starts no further send or
receive, the handler receives no further call at all, so no `OnRecvMessage`
and no `OnRequestSent`. -/
theorem status_terminal_when_quiet (c1 c2 : GrpcStreamingCall) (later : List CallAction)
    (hreach : c1.Reachable)
    (hstatus : ∃ st, HandlerCall.OnStatusReceived st ∈ c1.handler)
    (hsend : Batch.on_request_sent_ ∉ c1.outstanding)
    (hrecv : Batch.on_response_received_ ∉ c1.outstanding)
    (hlater : ∀ a ∈ later, a.issuesBatch = false)
    (hrun : c1.run later = some c2) :
    c2.handler = c1.handler := by
  obtain ⟨steps, hsteps⟩ := hreach
  have hinv : c1.statusOnce :=
    run_statusOnce steps GrpcStreamingCall.new c1 hsteps
      (by unfold GrpcStreamingCall.statusOnce; decide)
  obtain ⟨st, hst⟩ := hstatus
  have hpos : 0 < c1.handler.countP HandlerCall.isStatusEvent :=
    List.countP_pos_iff.mpr ⟨_, hst, rfl⟩
  have hnone : Batch.on_status_received_ ∉ c1.outstanding := by
    intro hmem
    have := List.count_pos_iff.mpr hmem
    unfold GrpcStreamingCall.statusOnce at hinv
    omega
  exact run_quiet later c1 c2 hrun ⟨hsend, hrecv, hnone⟩ hlater

/-- C6 (amended) after a send that completed before the status arrived: the
late completion of the initial-metadata batch and an `Orphan` deliver nothing. -/
theorem status_terminal_when_quiet_witness :
    ∃ c1 c2, GrpcStreamingCall.new.run
        [CallAction.SendMessage "req1", CallAction.RequestSentDone true,
          CallAction.StatusReceivedDone StatusCode.kOk ""] = some c1 ∧
      c1.run [CallAction.RecvInitialMetadataDone, CallAction.Orphan] = some c2 ∧
      c2.handler = [HandlerCall.OnRequestSent true,
        HandlerCall.OnStatusReceived ⟨StatusCode.kOk, ""⟩] := by
  refine ⟨_, _, rfl, rfl, ?_⟩
  exact status_terminal_when_quiet _ _
    [CallAction.RecvInitialMetadataDone, CallAction.Orphan]
    ⟨[CallAction.SendMessage "req1", CallAction.RequestSentDone true,
      CallAction.StatusReceivedDone StatusCode.kOk ""], rfl⟩
    ⟨⟨StatusCode.kOk, ""⟩, by decide⟩ (by decide) (by decide) (by decide) rfl

/-! ## Stop after Start -/

/-- C9, as stated, fails when the subscriber is already registered: after a
first Start for subscriber 7, a second Start followed by a Stop leaves the map
without an entry for 7 (before: the first adapter, 0) and leaves the second
adapter, 1, on the channel (before: the first adapter, 0). -/
theorem start_stop_when_already_registered :
    ((GrpcXdsTransport.new ⟨"A", false⟩ ⟨StatusCode.kOk, ""⟩).1.watchCall
        (WatchCall.Start 7)).WatchReachable ∧
      ((GrpcXdsTransport.new ⟨"A", false⟩ ⟨StatusCode.kOk, ""⟩).1.watchCall
        (WatchCall.Start 7)).channel_IsLame = false ∧
      ¬ (((((GrpcXdsTransport.new ⟨"A", false⟩ ⟨StatusCode.kOk, ""⟩).1.watchCall
              (WatchCall.Start 7)).StartConnectivityFailureWatch
              7).StopConnectivityFailureWatch 7).watchers_ =
            ((GrpcXdsTransport.new ⟨"A", false⟩ ⟨StatusCode.kOk, ""⟩).1.watchCall
              (WatchCall.Start 7)).watchers_) ∧
      ¬ (((((GrpcXdsTransport.new ⟨"A", false⟩ ⟨StatusCode.kOk, ""⟩).1.watchCall
              (WatchCall.Start 7)).StartConnectivityFailureWatch
              7).StopConnectivityFailureWatch 7).channel_watchers =
            ((GrpcXdsTransport.new ⟨"A", false⟩ ⟨StatusCode.kOk, ""⟩).1.watchCall
              (WatchCall.Start 7)).channel_watchers) := by
  refine ⟨GrpcXdsTransport.WatchReachable.call _ _
    (GrpcXdsTransport.WatchReachable.constructed _ _), rfl, ?_, ?_⟩
  · intro h
    have h7 := congrFun h 7
    revert h7
    decide
  · decide

/-- C9 (amended): on a reachable transport whose channel is not lame, Start
for subscriber `w` registers exactly one new adapter on the channel, one that
forwards to `w`, was not registered before and starts from IDLE; when `w` had
no entry in the watcher map, the map gets the entry for the new adapter and a
following Stop restores the watcher map and the registered adapters of the
channel to what they were before the Start; Stop removes the entry of `w` and
removes from the channel the adapter that entry named, leaving other entries
alone; Stop with no entry for `w` changes nothing. -/
theorem start_then_stop_restores (t : GrpcXdsTransport) (hreach : t.WatchReachable)
    (hlame : t.channel_IsLame = false) (w : Nat) :
    ((t.StartConnectivityFailureWatch w).channel_watchers =
        t.channel_watchers ++
          [⟨grpc_connectivity_state.GRPC_CHANNEL_IDLE, ⟨t.state_watchers_allocated, w⟩⟩]) ∧
      (∀ cw ∈ t.channel_watchers, cw.watcher.addr ≠ t.state_watchers_allocated) ∧
      (t.watchers_.find w = none →
        (t.StartConnectivityFailureWatch w).watchers_.find w =
            some t.state_watchers_allocated ∧
          ((t.StartConnectivityFailureWatch w).StopConnectivityFailureWatch w).watchers_ =
            t.watchers_ ∧
          ((t.StartConnectivityFailureWatch w).StopConnectivityFailureWatch w).channel_watchers =
            t.channel_watchers) ∧
      (∀ a, t.watchers_.find w = some a →
        (t.StopConnectivityFailureWatch w).watchers_.find w = none ∧
          (∀ w', w' ≠ w →
            (t.StopConnectivityFailureWatch w).watchers_.find w' = t.watchers_.find w') ∧
          (t.StopConnectivityFailureWatch w).channel_watchers =
            t.channel_watchers.filter (fun cw => decide (cw.watcher.addr ≠ a))) ∧
      (t.watchers_.find w = none → t.StopConnectivityFailureWatch w = t) := by
  have hfresh := WatchReachable_allocatedBelow t hreach
  have hne : ∀ cw ∈ t.channel_watchers, cw.watcher.addr ≠ t.state_watchers_allocated :=
    fun cw hcw => Nat.ne_of_lt (hfresh cw hcw)
  refine ⟨?_, hne, ?_, ?_, ?_⟩
  · simp [GrpcXdsTransport.StartConnectivityFailureWatch, hlame, AddConnectivityWatcher]
  · intro hnone
    have hnone' : t.watchers_ w = none := hnone
    have hstart : (t.StartConnectivityFailureWatch w).watchers_ =
        fun k => if k = w then some t.state_watchers_allocated else t.watchers_ k := by
      simp [GrpcXdsTransport.StartConnectivityFailureWatch, hlame, AddConnectivityWatcher,
        UMap.emplace, hnone']
    have hfind : (t.StartConnectivityFailureWatch w).watchers_.find w =
        some t.state_watchers_allocated := by
      simp [UMap.find, hstart]
    have hl : (t.StartConnectivityFailureWatch w).channel_IsLame = false := by
      simp [GrpcXdsTransport.StartConnectivityFailureWatch, hlame, AddConnectivityWatcher]
    refine ⟨hfind, ?_, ?_⟩
    · simp only [GrpcXdsTransport.StopConnectivityFailureWatch, hl, hfind]
      simp only [RemoveConnectivityWatcher, hstart]
      funext k
      by_cases hk : k = w
      · simp [UMap.erase, hk, hnone']
      · simp [UMap.erase, hk]
    · simp only [GrpcXdsTransport.StopConnectivityFailureWatch, hl, hfind]
      simp only [RemoveConnectivityWatcher]
      simp only [GrpcXdsTransport.StartConnectivityFailureWatch, hlame, AddConnectivityWatcher]
      simp only [Bool.false_eq_true, if_false, List.filter_append]
      simp only [List.filter_cons, List.filter_nil, ne_eq, not_true_eq_false, decide_False,
        Bool.false_eq_true, if_false, List.append_nil]
      exact List.filter_eq_self.mpr (fun cw hcw => by simpa using hne cw hcw)
  · intro a ha
    simp only [GrpcXdsTransport.StopConnectivityFailureWatch, hlame, ha]
    refine ⟨?_, ?_, ?_⟩
    · simp [RemoveConnectivityWatcher, UMap.find, UMap.erase]
    · intro w' hw'
      simp [RemoveConnectivityWatcher, UMap.find, UMap.erase, hw']
    · simp [RemoveConnectivityWatcher]
  · intro hnone
    simp [GrpcXdsTransport.StopConnectivityFailureWatch, hlame, hnone]

/-- C9 (amended) on a transport as constructed: Start then Stop for
subscriber 7 restores the empty channel. -/
theorem start_then_stop_restores_witness :
    (GrpcXdsTransport.new ⟨"A", false⟩ ⟨StatusCode.kOk, ""⟩).1.WatchReachable ∧
      (GrpcXdsTransport.new ⟨"A", false⟩ ⟨StatusCode.kOk, ""⟩).1.channel_IsLame = false ∧
      (((GrpcXdsTransport.new ⟨"A", false⟩ ⟨StatusCode.kOk, ""⟩).1.StartConnectivityFailureWatch
          7).StopConnectivityFailureWatch 7).channel_watchers =
        (GrpcXdsTransport.new ⟨"A", false⟩ ⟨StatusCode.kOk, ""⟩).1.channel_watchers :=
  ⟨GrpcXdsTransport.WatchReachable.constructed _ _, rfl,
    ((start_then_stop_restores (GrpcXdsTransport.new ⟨"A", false⟩ ⟨StatusCode.kOk, ""⟩).1
      (GrpcXdsTransport.WatchReachable.constructed _ _) rfl 7).2.2.1 rfl).2.2⟩

/-! ## Cache uniqueness -/

/-- C1 on the failing sequence: a transport for key "A" is returned (address
0) and released; before its `Orphaned` runs, `GetTransport` constructs
transport 1, which `emplace` does not store because the key still has the
entry of transport 0; `Orphaned` of transport 0 then erases that entry; the
next `GetTransport` constructs transport 2 although transport 1 is live. The
two live transports 1 and 2 have the same key. -/
theorem GetTransport_two_live_transports_for_one_key :
    (GrpcXdsTransportFactory.new.run
        [FactoryAction.GetTransport ⟨"A", false⟩ ⟨StatusCode.kOk, ""⟩,
          FactoryAction.Unref 0,
          FactoryAction.GetTransport ⟨"A", false⟩ ⟨StatusCode.kOk, ""⟩,
          FactoryAction.Orphaned 0,
          FactoryAction.GetTransport ⟨"A", false⟩ ⟨StatusCode.kOk, ""⟩]).map
        (fun r => (r.2, r.1.live 1, r.1.live 2,
          (r.1.deref 1).map (fun t => t.key_), (r.1.deref 2).map (fun t => t.key_),
          r.1.transports_.find "A")) =
      some ([0, 1, 2], true, true, some "A", some "A", some 2) := by
  rfl

/-! ## Lame channel on construction -/

/-- C2 on the failing input: in the state where key "A" still has the entry of
the released transport 0 whose `Orphaned` has not run, `GetTransport` for a
target with key "A" and a lame channel constructs transport 1, returns it and
sets the status to Unavailable with the message of the source, but the cache
entry for "A" still is transport 0 and not the new transport. -/
theorem GetTransport_lame_not_inserted_over_stale_entry :
    (GrpcXdsTransportFactory.new.run
        [FactoryAction.GetTransport ⟨"A", false⟩ ⟨StatusCode.kOk, ""⟩,
          FactoryAction.Unref 0]).map
        (fun r => (r.1.transports_.find "A", r.1.live 0,
          (r.1.GetTransport ⟨"A", true⟩ ⟨StatusCode.kOk, ""⟩).2,
          (r.1.GetTransport ⟨"A", true⟩ ⟨StatusCode.kOk, ""⟩).1.transports_.find "A",
          (r.1.GetTransport ⟨"A", true⟩ ⟨StatusCode.kOk, ""⟩).1.live 1)) =
      some (some 0, false, (1, ⟨StatusCode.kUnavailable, "xds client has a lame channel"⟩),
        some 0, true) := by
  rfl

end XdsTransportGrpc
